import Mathlib

/-!
Verification development for favicon-generator.py, a single-file tool that
converts one source image into favicon / PWA icon assets, metadata files and
an HTML fragment.  Python functions are shallowly embedded as executable Lean
definitions: Python floats are modelled as exact rationals, Python ints as ℤ,
strings as Lean strings (lists of characters), and the effectful body of
main() as a pure trace of the file writes it performs plus the list of HTML
lines it prints.
-/

/-! ## Python primitives -/

/-- Python3 round() for a rational value: round half to even, as used by
int(round(x)) in contain() and save_maskable(). -/
def pyRound (q : ℚ) : ℤ :=
  if q - ⌊q⌋ < 1/2 then ⌊q⌋
  else if 1/2 < q - ⌊q⌋ then ⌊q⌋ + 1
  else if ⌊q⌋ % 2 = 0 then ⌊q⌋ else ⌊q⌋ + 1

/-- ASCII whitespace recognised by str.strip(). -/
def isPySpace (c : Char) : Bool :=
  c = ' ' || c = '\t' || c = '\n' || c = '\r' || c = '\x0b' || c = '\x0c'

/-- Python str.strip(): drop leading and trailing whitespace. -/
def pyStrip (l : List Char) : List Char :=
  ((l.dropWhile isPySpace).reverse.dropWhile isPySpace).reverse

/-- Python str.split(",") on a character list: every comma is a separator and
empty segments are kept, so the result is always non-empty. -/
def splitComma : List Char → List (List Char)
  | [] => [[]]
  | ',' :: rest => [] :: splitComma rest
  | c :: rest =>
    match splitComma rest with
    | [] => [[c]]
    | seg :: segs => (c :: seg) :: segs

/-- Numeric value of an ASCII digit character. -/
def digitVal (c : Char) : ℕ := c.toNat - 48

/-- Digits of a Python integer literal after the first digit: digit or a
single underscore followed by a digit, as accepted by int(). -/
def digitsCore : ℕ → List Char → Option ℕ
  | acc, [] => some acc
  | acc, '_' :: c :: rest =>
    if c.isDigit then digitsCore (acc * 10 + digitVal c) rest else none
  | acc, c :: rest =>
    if c.isDigit then digitsCore (acc * 10 + digitVal c) rest else none

/-- Unsigned decimal digit part accepted by Python int(): at least one digit,
single underscores allowed between digits. -/
def pyDigits : List Char → Option ℕ
  | [] => none
  | c :: rest => if c.isDigit then digitsCore (digitVal c) rest else none

/-- Python int(str) on an already stripped string: optional sign followed by
a digit part; None models a ValueError. -/
def pyInt (l : List Char) : Option ℤ :=
  match l with
  | '+' :: rest => (pyDigits rest).map (fun n => (n : ℤ))
  | '-' :: rest => (pyDigits rest).map (fun n => -(n : ℤ))
  | _ => (pyDigits l).map (fun n => (n : ℤ))

/-- Convert every segment with int(); None as soon as one conversion fails,
modelling the ValueError escaping the set comprehension in parse_sizes. -/
def intsOf : List (List Char) → Option (List ℤ)
  | [] => some []
  | s :: ss =>
    match pyInt s, intsOf ss with
    | some i, some is => some (i :: is)
    | _, _ => none

/-! ## parse_sizes (source lines 178-187) -/

/-- Segments examined by parse_sizes: csv.split(",") with each segment
stripped, keeping only those that are non-empty after stripping. -/
def parse_segs (csv : String) : List (List Char) :=
  ((splitComma csv.data).map pyStrip).filter (fun s => s ≠ [])

/-- Embedding of parse_sizes: split on commas, strip each segment, keep the
non-empty ones, convert with int(), then sorted(set(...)); a ValueError or an
empty result raises SystemExit, modelled as Except.error with the source's
message. -/
def parse_sizes (csv : String) : Except String (List ℤ) :=
  match intsOf (parse_segs csv) with
  | none => Except.error "--favicon-sizes must be a comma-separated list of integers"
  | some ints =>
    if List.insertionSort (· ≤ ·) ints.dedup = [] then
      Except.error "At least one size must be provided for --favicon-sizes"
    else Except.ok (List.insertionSort (· ≤ ·) ints.dedup)

/-! ## ICO size selection (main, source lines 276-280, and save_ico) -/

/-- Embedding of main's ico_sizes computation: keep the favicon sizes that lie
in (16, 24, 32, 48, 64); fall back to [16, 32, 48] when none do. -/
def ico_sizes (favicon_sizes : List ℤ) : List ℤ :=
  let l := favicon_sizes.filter (fun s => s ∈ ([16, 24, 32, 48, 64] : List ℤ))
  if l = [] then [16, 32, 48] else l

/-- Embedding of the sizes argument save_ico passes to the ICO encoder:
sorted(sizes) (source line 121). -/
def save_ico_sizes (sizes : List ℤ) : List ℤ :=
  List.insertionSort (· ≤ ·) sizes

/-! ## Geometry: contain (source lines 72-77) and save_maskable (108-116) -/

/-- Dimensions produced by contain(): uniform scale factor
min(bw / w, bh / h), each axis rounded with int(round(...)) and clamped below
by 1.  Pixel resampling (LANCZOS) is outside the model. -/
def contain_size (w h bw bh : ℤ) : ℤ × ℤ :=
  let scale : ℚ := min ((bw : ℚ) / (w : ℚ)) ((bh : ℚ) / (h : ℚ))
  (max 1 (pyRound ((w : ℚ) * scale)), max 1 (pyRound ((h : ℚ) * scale)))

/-- Embedding of the padding clamp in save_maskable:
pad = max(0.0, min(0.3, pad)). -/
def save_maskable_pad (pad : ℚ) : ℚ := max 0 (min (3/10) pad)

/-- Embedding of the inner box side in save_maskable:
inner = int(round(size * (1 - 2 * pad))) with pad already clamped. -/
def save_maskable_inner (size : ℤ) (pad : ℚ) : ℤ :=
  pyRound ((size : ℚ) * (1 - 2 * save_maskable_pad pad))

/-! ## Images: trim_alpha (source lines 86-91) -/

/-- RGBA bitmap: width, height and a pixel function returning (r, g, b, a);
only the values at x < w, y < h are meaningful. -/
@[ext]
structure Img where
  w : ℕ
  h : ℕ
  px : ℕ → ℕ → ℕ × ℕ × ℕ × ℕ

/-- Alpha channel of a pixel, img.split()[-1] in the source. -/
def alphaAt (img : Img) (x y : ℕ) : ℕ := (img.px x y).2.2.2

/-- Columns that contain a pixel with non-zero alpha. -/
def nzX (img : Img) : Finset ℕ :=
  (Finset.range img.w).filter (fun x => ∃ y ∈ Finset.range img.h, alphaAt img x y ≠ 0)

/-- Rows that contain a pixel with non-zero alpha. -/
def nzY (img : Img) : Finset ℕ :=
  (Finset.range img.h).filter (fun y => ∃ x ∈ Finset.range img.w, alphaAt img x y ≠ 0)

/-- Embedding of img.split()[-1].getbbox(): the minimal (left, upper, right,
lower) box containing every pixel with non-zero alpha, right and lower
exclusive; None when the image is fully transparent. -/
def getbbox (img : Img) : Option (ℕ × ℕ × ℕ × ℕ) :=
  if hx : (nzX img).Nonempty then
    if hy : (nzY img).Nonempty then
      some ((nzX img).min' hx, (nzY img).min' hy,
            (nzX img).max' hx + 1, (nzY img).max' hy + 1)
    else none
  else none

/-- Embedding of img.crop((l, u, r, lo)): the (r - l) × (lo - u) window whose
pixel (x, y) is the source pixel (x + l, y + u). -/
def crop (img : Img) (l u r lo : ℕ) : Img :=
  ⟨r - l, lo - u, fun x y => img.px (x + l) (y + u)⟩

/-- Embedding of trim_alpha for an RGBA image: crop to the alpha bounding box
when there is one, otherwise return the image unchanged. -/
def trim_alpha (img : Img) : Img :=
  match getbbox img with
  | some (l, u, r, lo) => crop img l u r lo
  | none => img

/-! ## write_manifest (source lines 125-160) -/

/-- One entry of the manifest's icon list. -/
structure ManifestIcon where
  src : String
  sizes : String
  type : String
  purpose : Option String := none
deriving DecidableEq

/-- Embedding of the icons list built by write_manifest: the tight,
non-maskable 512/256/192 entries in that order, then the maskable 512 entry
when include_maskable is set. -/
def manifest_icons (include_maskable : Bool) : List ManifestIcon :=
  [⟨"icons/icon-512x512.png", "512x512", "image/png", none⟩,
   ⟨"icons/icon-256x256.png", "256x256", "image/png", none⟩,
   ⟨"icons/icon-192x192.png", "192x192", "image/png", none⟩] ++
  (if include_maskable then
    [⟨"icons/icon-maskable-512x512.png", "512x512", "image/png", some "maskable"⟩]
   else [])

/-! ## CLI arguments (argparse configuration in main, lines 192-238) -/

/-- Parsed CLI options of main(); defaults are the argparse defaults.  Paths
are strings; pinned_svg is None or a path. -/
structure Args where
  icons_dir : String := "static/icons"
  manifest_dir : String := "static"
  pwa_theme : String := "#ffffff"
  pwa_bg : String := "#ffffff"
  pwa_name : String := "My App"
  pwa_short_name : String := "App"
  maskable_padding : ℚ := 12/100
  pinned_svg : Option String := none
  safari_pinned_color : String := "#5bbad5"
  make_browserconfig : Bool := false
  no_ico : Bool := false
  no_apple_touch : Bool := false
  no_maskable : Bool := false
  no_manifest : Bool := false
  autotrim : Bool := false
  favicon_sizes : String := "16,32,48,256"
  flask : Bool := false
  public_prefix : String := "/static/"

/-! ## HTML output (main, source lines 304-380) -/

/-- Python str.rstrip("/"): remove every trailing slash. -/
def rstripSlash : List Char → List Char
  | [] => []
  | c :: cs =>
    match rstripSlash cs with
    | [] => if c = '/' then [] else [c]
    | r => c :: r

/-- Python prefix.replace("\\", "/") on a character list. -/
def backslashToSlash (l : List Char) : List Char :=
  l.map (fun c => if c = '\\' then '/' else c)

/-- Prepend a slash unless the list already starts with one,
prefix = "/" + prefix in the source. -/
def ensureLeadSlash (l : List Char) : List Char :=
  if l.head? = some '/' then l else '/' :: l

/-- Core of normalize_prefix on a character list: empty becomes "/";
backslashes become slashes; a leading slash is ensured; trailing slashes are
collapsed into exactly one. -/
def normPrefixCore (l : List Char) : List Char :=
  if l = [] then ['/']
  else rstripSlash (ensureLeadSlash (backslashToSlash l)) ++ ['/']

/-- Embedding of normalize_prefix (source lines 305-311). -/
def normalize_prefix (p : String) : String := ⟨normPrefixCore p.data⟩

/-- Embedding of the fmt closure chosen in main: with --flask the Flask
url_for template, otherwise the normalized public prefix followed by the
file name. -/
def fmt (a : Args) (f : String) : String :=
  if a.flask then
    "\x7b\x7b url_for(\x27static\x27, filename=\x27" ++ f ++ "\x27) \x7d\x7d"
  else
    ( normalize_prefix a.public_prefix) ++ f

/-- Opening comment line of the fragment. -/
def headerLine : String := "<!-- === FAVICONS & PWA ICONS === -->"

/-- Closing comment line of the fragment. -/
def footerLine : String := "<!-- === END FAVICONS & PWA ICONS === -->"

/-- SVG icon link emitted when the source was SVG. -/
def svgLine (a : Args) : String :=
  "<link rel=\"icon\" href=\"" ++ (fmt a "icons/favicon.svg" ++ "\" type=\"image/svg+xml\">")

/-- PNG favicon link for one generated size. -/
def pngLine (a : Args) (s : ℤ) : String :=
  "<link rel=\"icon\" type=\"image/png\" sizes=\"" ++ (toString s ++ ("x" ++ (toString s ++
    ("\" href=\"" ++ (fmt a ("icons/favicon-" ++ toString s ++ "x" ++ toString s ++ ".png") ++
      "\">")))))

/-- Apple touch icon link. -/
def appleLine (a : Args) : String :=
  "<link rel=\"apple-touch-icon\" sizes=\"180x180\" href=\"" ++
    (fmt a "icons/apple-touch-icon.png" ++ "\">")

/-- Safari pinned tab mask-icon link. -/
def maskLine (a : Args) : String :=
  "<link rel=\"mask-icon\" href=\"" ++ (fmt a "icons/safari-pinned-tab.svg" ++
    ("\" color=\"" ++ (a.safari_pinned_color ++ "\">")))

/-- Manifest link. -/
def manifestLine (a : Args) : String :=
  "<link rel=\"manifest\" href=\"" ++ (fmt a "site.webmanifest" ++ "\">")

/-- Theme color meta line. -/
def themeLine (a : Args) : String :=
  "<meta name=\"theme-color\" content=\"" ++ (a.pwa_theme ++ "\">")

/-- Background color meta line. -/
def bgLine (a : Args) : String :=
  "<meta name=\"background-color\" content=\"" ++ (a.pwa_bg ++ "\">")

/-- msapplication-TileColor meta line. -/
def tileColorLine (a : Args) : String :=
  "<meta name=\"msapplication-TileColor\" content=\"" ++ (a.pwa_theme ++ "\">")

/-- msapplication-config meta line. -/
def configLine (a : Args) : String :=
  "<meta name=\"msapplication-config\" content=\"" ++ (fmt a "browserconfig.xml" ++ "\">")

/-- Legacy alternate icon (ICO) link. -/
def icoLine (a : Args) : String :=
  "<link rel=\"alternate icon\" href=\"" ++ (fmt a "icons/favicon.ico" ++
    "\" type=\"image/x-icon\">")

/-- Embedding of the HTML fragment printed by main (lines 329-380), in the
source's emission order, for a run with the given flags, source kind and
parsed favicon size list. -/
def emitLines (a : Args) (is_svg : Bool) (sizes : List ℤ) : List String :=
  [headerLine]
  ++ (if is_svg then [svgLine a] else [])
  ++ sizes.map (pngLine a)
  ++ (if a.no_apple_touch then [] else [appleLine a])
  ++ (if a.pinned_svg.isSome then [maskLine a] else [])
  ++ (if a.no_manifest then [] else [manifestLine a])
  ++ [themeLine a, bgLine a]
  ++ (if a.make_browserconfig then [tileColorLine a, configLine a] else [])
  ++ (if a.no_ico then [] else [icoLine a])
  ++ [footerLine]

/-! ## File writes performed by main (source lines 240-302) -/

/-- One file write performed by main, with the data that parameterizes it. -/
inductive Artifact where
  | copySvg (path : String)
  | png (path : String) (w h : ℤ)
  | appleTouch (path : String) (bg : String)
  | maskable (path : String) (size : ℤ) (pad : ℚ)
  | ico (path : String) (sizes : List ℤ)
  | copyPinned (path : String)
  | browserconfig (path : String) (tile_color : String)
  | manifest (path : String) (theme bg name short : String) (include_maskable : Bool)
deriving DecidableEq

/-- Path of the favicon PNG for one size, icons_dir / f"favicon-{s}x{s}.png". -/
def favicon_png_path (a : Args) (s : ℤ) : String :=
  a.icons_dir ++ "/favicon-" ++ toString s ++ "x" ++ toString s ++ ".png"

/-- The favicon PNG writes of main's size loop (lines 254-255): one save_png
at (s, s) per parsed size, in list order. -/
def faviconPngs (a : Args) (sizes : List ℤ) : List Artifact :=
  sizes.map (fun s => Artifact.png (favicon_png_path a s) s s)

/-- Trace of the file writes performed by one run of main, in program order,
as a function of the flags, the source kind and the parsed size list. -/
def mainWrites (a : Args) (is_svg : Bool) (sizes : List ℤ) : List Artifact :=
  (if is_svg then [Artifact.copySvg (a.icons_dir ++ "/favicon.svg")] else [])
  ++ faviconPngs a sizes
  ++ (if a.no_apple_touch then []
      else [Artifact.appleTouch (a.icons_dir ++ "/apple-touch-icon.png") a.pwa_bg])
  ++ [Artifact.png (a.icons_dir ++ "/icon-192x192.png") 192 192,
      Artifact.png (a.icons_dir ++ "/icon-256x256.png") 256 256,
      Artifact.png (a.icons_dir ++ "/icon-512x512.png") 512 512]
  ++ (if a.no_maskable then []
      else [Artifact.maskable (a.icons_dir ++ "/icon-maskable-512x512.png") 512
              a.maskable_padding])
  ++ (if a.no_ico then []
      else [Artifact.ico (a.icons_dir ++ "/favicon.ico") (save_ico_sizes (ico_sizes sizes))])
  ++ (if a.pinned_svg.isSome then
        [Artifact.copyPinned (a.icons_dir ++ "/safari-pinned-tab.svg")]
      else [])
  ++ (if a.make_browserconfig then
        [Artifact.png (a.icons_dir ++ "/mstile-150x150.png") 150 150,
         Artifact.browserconfig (a.manifest_dir ++ "/browserconfig.xml") a.pwa_theme]
      else [])
  ++ (if a.no_manifest then []
      else [Artifact.manifest (a.manifest_dir ++ "/site.webmanifest") a.pwa_theme a.pwa_bg
              a.pwa_name a.pwa_short_name (!a.no_maskable)])


/-- Discriminating tag of an emitted HTML line: classifies a line by its
first 20 characters (the fixed part of each template), used to reason about
which emitted lines can coincide.  The two msapplication meta lines share a
tag; they are always emitted together. -/
def lineTag (s : String) : ℕ :=
  if s.data.take 20 = ("<link rel=\"icon\" href=\"").data.take 20 then 1
  else if s.data.take 20 = ("<link rel=\"icon\" type=\"image/png\" sizes=\"").data.take 20 then 2
  else if s.data.take 20 = ("<link rel=\"apple-touch-icon\" sizes=\"180x180\" href=\"").data.take 20 then 3
  else if s.data.take 20 = ("<link rel=\"mask-icon\" href=\"").data.take 20 then 4
  else if s.data.take 20 = ("<link rel=\"manifest\" href=\"").data.take 20 then 5
  else if s.data.take 20 = ("<meta name=\"theme-color\" content=\"").data.take 20 then 6
  else if s.data.take 20 = ("<meta name=\"background-color\" content=\"").data.take 20 then 7
  else if s.data.take 20 = ("<meta name=\"msapplication-TileColor\" content=\"").data.take 20 then 8
  else if s.data.take 20 = ("<!-- === FAVICONS & PWA ICONS === -->").data.take 20 then 11
  else if s.data.take 20 = ("<!-- === END FAVICONS & PWA ICONS === -->").data.take 20 then 12
  else 0

/-! ## Helper lemmas -/

lemma intsOf_isSome_iff (l : List (List Char)) :
    (intsOf l).isSome ↔ ∀ s ∈ l, (pyInt s).isSome := by
  induction l with
  | nil => simp [intsOf]
  | cons s ss ih =>
    constructor
    · intro h t ht
      simp only [intsOf] at h
      cases hp : pyInt s with
      | none => rw [hp] at h; simp at h
      | some i =>
        cases hi : intsOf ss with
        | none => rw [hp, hi] at h; simp at h
        | some is =>
          rcases List.mem_cons.mp ht with rfl | ht'
          · simp [hp]
          · exact (ih.mp (by simp [hi])) t ht'
    · intro h
      simp only [intsOf]
      cases hp : pyInt s with
      | none =>
        have hs := h s (List.mem_cons_self s ss)
        rw [hp] at hs; simp at hs
      | some i =>
        have hss : (intsOf ss).isSome :=
          ih.mpr (fun t ht => h t (List.mem_cons_of_mem s ht))
        cases hi : intsOf ss with
        | none => rw [hi] at hss; simp at hss
        | some is => simp

lemma intsOf_eq_some_nil_iff (l : List (List Char)) :
    intsOf l = some [] ↔ l = [] := by
  cases l with
  | nil => simp [intsOf]
  | cons s ss =>
    simp only [intsOf]
    constructor
    · intro h
      cases hp : pyInt s <;> cases hi : intsOf ss <;> simp [hp, hi] at h
    · intro h; exact absurd h (by simp)

lemma insertionSort_eq_nil_iff (l : List ℤ) :
    List.insertionSort (· ≤ ·) l = [] ↔ l = [] := by
  constructor
  · intro h
    have := (List.perm_insertionSort (· ≤ ·) l).length_eq
    rw [h] at this
    exact List.length_eq_zero.mp this.symm
  · intro h; subst h; rfl

/-- Properties of a successful parse_sizes run, shared by several claims. -/
lemma parse_sizes_ok_props {csv : String} {l : List ℤ}
    (h : parse_sizes csv = Except.ok l) :
    l ≠ [] ∧ l.Nodup ∧ l.Sorted (· < ·) := by
  cases hi : intsOf (parse_segs csv) with
  | none =>
    simp only [parse_sizes, hi] at h
    exact absurd h (by simp)
  | some ints =>
    simp only [parse_sizes, hi] at h
    by_cases hnil : List.insertionSort (· ≤ ·) ints.dedup = []
    · rw [if_pos hnil] at h; exact absurd h (by simp)
    · rw [if_neg hnil] at h
      have hl : l = List.insertionSort (· ≤ ·) ints.dedup := by
        have := h
        injection this with h2
        exact h2.symm
      subst hl
      refine ⟨hnil, ?_, ?_⟩
      · exact ((List.perm_insertionSort (· ≤ ·) ints.dedup).symm.nodup_iff).mp
          (List.nodup_dedup ints)
      · exact (List.sorted_insertionSort (· ≤ ·) ints.dedup).lt_of_le
          (((List.perm_insertionSort (· ≤ ·) ints.dedup).symm.nodup_iff).mp
            (List.nodup_dedup ints))

/-! ## C7: maskable padding clamp -/

/-- C7: save_maskable clamps the padding into the interval from 0 to 0.3
(values below 0 become 0, values above 0.3 become 0.3, values inside are
kept) for every input and never rejects it, and the inner contain-fit box is
round(size * (1 - 2 * clamped padding)) per side. -/
theorem c7_maskable_padding_clamped (pad : ℚ) :
    0 ≤ save_maskable_pad pad ∧
    save_maskable_pad pad ≤ 3/10 ∧
    (pad < 0 → save_maskable_pad pad = 0) ∧
    (3/10 < pad → save_maskable_pad pad = 3/10) ∧
    (0 ≤ pad → pad ≤ 3/10 → save_maskable_pad pad = pad) ∧
    ∀ size : ℤ, save_maskable_inner size pad =
      pyRound ((size : ℚ) * (1 - 2 * save_maskable_pad pad)) := by
  unfold save_maskable_pad save_maskable_inner
  refine ⟨le_max_left _ _, max_le (by norm_num) (min_le_left _ _), ?_, ?_, ?_, fun _ => rfl⟩
  · intro h
    rw [min_eq_right (by linarith), max_eq_left (by linarith)]
  · intro h
    rw [min_eq_left (by linarith), max_eq_right (by norm_num)]
  · intro h0 h3
    rw [min_eq_right h3, max_eq_right h0]

/-- C7 witness: the clamp evaluated below and above the interval. -/
theorem c7_maskable_padding_clamped_witness :
    save_maskable_pad (-1) = 0 ∧ save_maskable_pad 2 = 3/10 :=
  ⟨(c7_maskable_padding_clamped (-1)).2.2.1 (by norm_num),
   (c7_maskable_padding_clamped 2).2.2.2.1 (by norm_num)⟩

/-! ## C8: manifest icon list order -/

/-- C8: the manifest icon list is the non-maskable 512, 256, 192 entries in
that order, followed by the maskable-purpose 512 entry exactly when maskable
generation is not suppressed; when it is suppressed the list has exactly 3
entries.  Main passes include_maskable = not args.no_maskable. -/
theorem c8_manifest_icons_order :
    manifest_icons true =
      [⟨"icons/icon-512x512.png", "512x512", "image/png", none⟩,
       ⟨"icons/icon-256x256.png", "256x256", "image/png", none⟩,
       ⟨"icons/icon-192x192.png", "192x192", "image/png", none⟩,
       ⟨"icons/icon-maskable-512x512.png", "512x512", "image/png", some "maskable"⟩] ∧
    manifest_icons false =
      [⟨"icons/icon-512x512.png", "512x512", "image/png", none⟩,
       ⟨"icons/icon-256x256.png", "256x256", "image/png", none⟩,
       ⟨"icons/icon-192x192.png", "192x192", "image/png", none⟩] ∧
    (manifest_icons false).length = 3 ∧
    ∀ (b : Bool), manifest_icons b =
      manifest_icons false ++
        (if b then
          [⟨"icons/icon-maskable-512x512.png", "512x512", "image/png", some "maskable"⟩]
         else []) := by
  refine ⟨rfl, rfl, rfl, fun b => ?_⟩
  cases b <;> rfl

/-! ## C2: ICO bundled sizes -/

/-- C2 counterexample: with favicon sizes [24] (a valid size list), the ICO
bundle is [24], which contains none of 16, 32, 48; so the claim that the
bundle always includes at least one of 16, 32, 48 is false. -/
theorem c2_counterexample :
    parse_sizes "24" = Except.ok [24] ∧
    save_ico_sizes (ico_sizes [24]) = [24] ∧
    ¬ ∃ s ∈ save_ico_sizes (ico_sizes [24]), s = 16 ∨ s = 32 ∨ s = 48 := by
  refine ⟨rfl, rfl, by decide⟩

/-- C2 (amended): the ICO bundle always includes at least one of
16, 24, 32, 48, 64, and when the favicon size set contains none of
16, 24, 32, 48, 64 the bundled set is exactly 16, 32, 48. -/
theorem c2_ico_sizes_amended (sizes : List ℤ) :
    (∃ s ∈ save_ico_sizes (ico_sizes sizes), s ∈ ([16, 24, 32, 48, 64] : List ℤ)) ∧
    ((∀ s ∈ sizes, s ∉ ([16, 24, 32, 48, 64] : List ℤ)) →
      save_ico_sizes (ico_sizes sizes) = [16, 32, 48]) := by
  constructor
  · unfold ico_sizes
    by_cases hf : sizes.filter (fun s => s ∈ ([16, 24, 32, 48, 64] : List ℤ)) = []
    · rw [if_pos hf]
      exact ⟨16, by decide, by decide⟩
    · rw [if_neg hf]
      rcases List.exists_mem_of_ne_nil _ hf with ⟨x, hx⟩
      refine ⟨x, ?_, ?_⟩
      · exact ((List.perm_insertionSort (· ≤ ·) _).mem_iff).mpr hx
      · have := List.of_mem_filter hx
        simpa using this
  · intro hall
    have hf : sizes.filter (fun s => s ∈ ([16, 24, 32, 48, 64] : List ℤ)) = [] := by
      rw [List.filter_eq_nil_iff]
      intro x hx
      simpa using hall x hx
    unfold ico_sizes
    rw [if_pos hf]
    decide

/-- C2 witness: a size list with none of the bundled candidates falls back to
exactly 16, 32, 48. -/
theorem c2_ico_sizes_amended_witness :
    save_ico_sizes (ico_sizes [100]) = [16, 32, 48] :=
  (c2_ico_sizes_amended [100]).2 (by decide)

/-! ## C3: parse_sizes validity -/

/-- C3 counterexample: parse_sizes accepts zero and negative integers (the
code never checks positivity), so the claim that a successful parse contains
only strictly positive integers is false. -/
theorem c3_counterexample :
    parse_sizes "0" = Except.ok [0] ∧
    parse_sizes "-5,-5" = Except.ok [-5] ∧
    ¬ ∀ (csv : String) (l : List ℤ), parse_sizes csv = Except.ok l → ∀ x ∈ l, 0 < x := by
  refine ⟨rfl, rfl, fun h => ?_⟩
  have := h "0" [0] rfl 0 (by decide)
  exact absurd this (by decide)

/-- C3 (amended): parsing the favicon-sizes string either yields a non-empty,
deduplicated, sorted list of integers or the program exits with an error; it
never succeeds with an empty set.  The positivity guarantee of the original
claim does not hold (see the counterexample). -/
theorem c3_parse_sizes_amended (csv : String) (l : List ℤ)
    (h : parse_sizes csv = Except.ok l) :
    l ≠ [] ∧ l.Nodup ∧ l.Sorted (· < ·) :=
  parse_sizes_ok_props h

/-- C3 witness: a concrete successful parse, non-empty, deduplicated and
sorted. -/
theorem c3_parse_sizes_amended_witness :
    ([16, 32] : List ℤ) ≠ [] ∧ ([16, 32] : List ℤ).Nodup ∧
      ([16, 32] : List ℤ).Sorted (· < ·) :=
  c3_parse_sizes_amended "32,16,32" [16, 32] rfl

/-! ## C10: empty segments are skipped -/

/-- C10: comma-separated entries that are empty or whitespace-only are
ignored, surrounding whitespace is stripped before conversion, and parsing
fails exactly when some non-empty trimmed segment is not an integer or when
no non-empty segment exists. -/
theorem c10_parse_sizes_skips_empty_segments :
    parse_sizes "16,,32," = Except.ok [16, 32] ∧
    parse_sizes " 16 , 32 " = Except.ok [16, 32] ∧
    ∀ csv : String,
      (∃ l, parse_sizes csv = Except.ok l) ↔
        (parse_segs csv ≠ [] ∧ ∀ s ∈ parse_segs csv, (pyInt s).isSome) := by
  refine ⟨rfl, rfl, fun csv => ?_⟩
  constructor
  · rintro ⟨l, hl⟩
    cases hi : intsOf (parse_segs csv) with
    | none =>
      simp only [parse_sizes, hi] at hl
      exact absurd hl (by simp)
    | some ints =>
      refine ⟨?_, (intsOf_isSome_iff _).mp (by simp [hi])⟩
      intro hnil
      simp only [parse_sizes] at hl
      rw [hnil] at hl
      simp [intsOf, List.insertionSort] at hl
  · rintro ⟨hne, hall⟩
    have hs : (intsOf (parse_segs csv)).isSome := (intsOf_isSome_iff _).mpr hall
    cases hi : intsOf (parse_segs csv) with
    | none => rw [hi] at hs; simp at hs
    | some ints =>
      have hi_ne : ints ≠ [] := by
        intro h0
        subst h0
        exact hne ((intsOf_eq_some_nil_iff _).mp hi)
      have hd : ints.dedup ≠ [] := fun h0 => hi_ne ((List.dedup_eq_nil _).mp h0)
      have hs' : List.insertionSort (· ≤ ·) ints.dedup ≠ [] := fun h0 =>
        hd ((insertionSort_eq_nil_iff _).mp h0)
      refine ⟨List.insertionSort (· ≤ ·) ints.dedup, ?_⟩
      simp only [parse_sizes, hi]
      rw [if_neg hs']

/-- C10 witness: a parse with whitespace-only and trailing empty segments
succeeds. -/
theorem c10_parse_sizes_skips_empty_segments_witness :
    ∃ l, parse_sizes "5, , 7," = Except.ok l :=
  (c10_parse_sizes_skips_empty_segments.2.2 "5, , 7,").mpr (by decide)

/-! ## C4: favicon PNG files per size -/

/-- C4: for every valid favicon-sizes input, main's favicon loop performs one
save_png write per parsed size, at exactly size by size pixels, and the set of
written favicon files corresponds exactly to the deduplicated sorted parsed
set: no size is skipped, duplicated, or added. -/
theorem c4_favicon_pngs_match_sizes (a : Args) (csv : String) (l : List ℤ)
    (h : parse_sizes csv = Except.ok l) :
    faviconPngs a l = l.map (fun s => Artifact.png (favicon_png_path a s) s s) ∧
    l ≠ [] ∧ l.Nodup ∧ l.Sorted (· < ·) ∧
    (faviconPngs a l).Nodup ∧
    (∀ n : ℤ, Artifact.png (favicon_png_path a n) n n ∈ faviconPngs a l ↔ n ∈ l) := by
  obtain ⟨hne, hnd, hsort⟩ := parse_sizes_ok_props h
  refine ⟨rfl, hne, hnd, hsort, ?_, ?_⟩
  · refine List.Nodup.map ?_ hnd
    intro x y hxy
    simp only [Artifact.png.injEq] at hxy
    exact hxy.2.1
  · intro n
    simp only [faviconPngs, List.mem_map]
    constructor
    · rintro ⟨s, hs, heq⟩
      simp only [Artifact.png.injEq] at heq
      exact heq.2.1 ▸ hs
    · intro hn
      exact ⟨n, hn, rfl⟩

/-- C4 witness: with sizes parsed from a concrete flag value, the 16-pixel
favicon write is present. -/
theorem c4_favicon_pngs_match_sizes_witness :
    Artifact.png (favicon_png_path ({} : Args) 16) 16 16 ∈ faviconPngs ({} : Args) [16, 32] :=
  ((c4_favicon_pngs_match_sizes ({} : Args) "16,32" [16, 32] rfl).2.2.2.2.2 16).mpr
    (by decide)

/-! ## C9: public prefix normalization and Flask mode -/

lemma rstripSlash_head (m : List Char) (c : Char) (r : List Char)
    (h : rstripSlash m = c :: r) : m.head? = some c := by
  cases m with
  | nil => simp [rstripSlash] at h
  | cons d ds =>
    simp only [rstripSlash] at h
    cases hr : rstripSlash ds with
    | nil =>
      rw [hr] at h
      by_cases hd : d = '/'
      · simp [hd] at h
      · simp only [if_neg hd] at h
        have : d = c := by
          have := List.head_eq_of_cons_eq h
          exact this
        rw [this]
        rfl
    | cons e es =>
      rw [hr] at h
      have : d = c := List.head_eq_of_cons_eq h
      rw [this]
      rfl

lemma ensureLeadSlash_head (l : List Char) :
    (ensureLeadSlash l).head? = some '/' := by
  unfold ensureLeadSlash
  by_cases h : l.head? = some '/'
  · rw [if_pos h]; exact h
  · rw [if_neg h]; rfl

lemma normPrefixCore_head (l : List Char) :
    (normPrefixCore l).head? = some '/' := by
  unfold normPrefixCore
  by_cases hl : l = []
  · rw [if_pos hl]; rfl
  · rw [if_neg hl]
    cases hr : rstripSlash (ensureLeadSlash (backslashToSlash l)) with
    | nil => rfl
    | cons c r =>
      have h1 := rstripSlash_head _ c r hr
      rw [ensureLeadSlash_head (backslashToSlash l)] at h1
      have : c = '/' := by
        injection h1 with h2
        exact h2.symm
      rw [this]
      rfl

lemma normPrefixCore_getLast (l : List Char) :
    (normPrefixCore l).getLast? = some '/' := by
  unfold normPrefixCore
  by_cases hl : l = []
  · rw [if_pos hl]; rfl
  · rw [if_neg hl]; exact List.getLast?_concat _

/-- C9: for every public-prefix string, the prefix used in the emitted HTML
starts and ends with a slash, the empty string normalizes to a bare slash,
and with the flask flag the public prefix has no effect on formatted URLs. -/
theorem c9_public_prefix_normalized (p : String) :
    ( normalize_prefix p).data.head? = some '/' ∧
    ( normalize_prefix p).data.getLast? = some '/' ∧
    normalize_prefix "" = "/" ∧
    ∀ (a : Args) (p2 f : String), a.flask = true →
      fmt a f = fmt { a with public_prefix := p2 } f := by
  refine ⟨normPrefixCore_head _, normPrefixCore_getLast _, rfl, ?_⟩
  intro a p2 f hf
  simp [fmt, hf]

/-- C9 witness: under the flask flag, changing the public prefix leaves the
formatted URL unchanged. -/
theorem c9_public_prefix_normalized_witness :
    fmt { flask := true } "site.webmanifest" =
      fmt { flask := true, public_prefix := "/assets/" } "site.webmanifest" :=
  (c9_public_prefix_normalized "").2.2.2 { flask := true } "/assets/" "site.webmanifest" rfl

/-! ## C5: contain-fit dimensions -/

lemma pyRound_le_intCast {q : ℚ} {z : ℤ} (h : q ≤ (z : ℚ)) : pyRound q ≤ z := by
  have hfl : ⌊q⌋ ≤ z := by
    have := Int.floor_le_floor h
    rwa [Int.floor_intCast] at this
  have hlt : (1/2 : ℚ) ≤ q - ⌊q⌋ → ⌊q⌋ + 1 ≤ z := by
    intro hr
    have h1 : (⌊q⌋ : ℚ) < q := by
      have := Int.floor_le q
      linarith
    have h2 : (⌊q⌋ : ℚ) < (z : ℚ) := lt_of_lt_of_le h1 h
    have h3 : ⌊q⌋ < z := by exact_mod_cast h2
    omega
  unfold pyRound
  split_ifs with h1 h2 h3
  · exact hfl
  · exact hlt (le_of_lt h2)
  · exact hfl
  · exact hlt (not_lt.mp h1)

lemma abs_pyRound_sub_le (q : ℚ) : |(pyRound q : ℚ) - q| ≤ 1/2 := by
  have hf1 : (⌊q⌋ : ℚ) ≤ q := Int.floor_le q
  have hf2 : q < ⌊q⌋ + 1 := Int.lt_floor_add_one q
  unfold pyRound
  split_ifs with h1 h2 h3
  · rw [abs_le]; constructor <;> linarith
  · rw [abs_le]; push_cast; constructor <;> linarith
  · rw [abs_le]; constructor <;> linarith [not_lt.mp h1, not_lt.mp h2]
  · rw [abs_le]; push_cast; constructor <;> linarith [not_lt.mp h1, not_lt.mp h2]

/-- C5: for source dimensions w, h at least 1 and a target box bw, bh at
least 1, contain produces exactly
(max 1 (round (w * s)), max 1 (round (h * s))) with s = min(bw / w, bh / h),
never exceeds the target box, and keeps each dimension within 1 pixel of the
exact aspect-preserving value w * s, h * s. -/
theorem c5_contain_fit (w h bw bh : ℤ)
    (hw : 1 ≤ w) (hh : 1 ≤ h) (hbw : 1 ≤ bw) (hbh : 1 ≤ bh) :
    contain_size w h bw bh =
      (max 1 (pyRound ((w : ℚ) * min ((bw : ℚ) / (w : ℚ)) ((bh : ℚ) / (h : ℚ)))),
       max 1 (pyRound ((h : ℚ) * min ((bw : ℚ) / (w : ℚ)) ((bh : ℚ) / (h : ℚ))))) ∧
    (contain_size w h bw bh).1 ≤ bw ∧
    (contain_size w h bw bh).2 ≤ bh ∧
    |((contain_size w h bw bh).1 : ℚ) -
      (w : ℚ) * min ((bw : ℚ) / (w : ℚ)) ((bh : ℚ) / (h : ℚ))| ≤ 1 ∧
    |((contain_size w h bw bh).2 : ℚ) -
      (h : ℚ) * min ((bw : ℚ) / (w : ℚ)) ((bh : ℚ) / (h : ℚ))| ≤ 1 := by
  have hw' : (0 : ℚ) < (w : ℚ) := by exact_mod_cast lt_of_lt_of_le zero_lt_one hw
  have hh' : (0 : ℚ) < (h : ℚ) := by exact_mod_cast lt_of_lt_of_le zero_lt_one hh
  have hbw' : (0 : ℚ) < (bw : ℚ) := by exact_mod_cast lt_of_lt_of_le zero_lt_one hbw
  have hbh' : (0 : ℚ) < (bh : ℚ) := by exact_mod_cast lt_of_lt_of_le zero_lt_one hbh
  set s : ℚ := min ((bw : ℚ) / (w : ℚ)) ((bh : ℚ) / (h : ℚ)) with hs
  have hspos : 0 < s := lt_min (div_pos hbw' hw') (div_pos hbh' hh')
  have hcw : (w : ℚ) * ((bw : ℚ) / (w : ℚ)) = (bw : ℚ) := by field_simp
  have hch : (h : ℚ) * ((bh : ℚ) / (h : ℚ)) = (bh : ℚ) := by field_simp
  have hws_le : (w : ℚ) * s ≤ (bw : ℚ) := by
    calc (w : ℚ) * s ≤ (w : ℚ) * ((bw : ℚ) / (w : ℚ)) :=
          mul_le_mul_of_nonneg_left (min_le_left _ _) (le_of_lt hw')
    _ = (bw : ℚ) := hcw
  have hhs_le : (h : ℚ) * s ≤ (bh : ℚ) := by
    calc (h : ℚ) * s ≤ (h : ℚ) * ((bh : ℚ) / (h : ℚ)) :=
          mul_le_mul_of_nonneg_left (min_le_right _ _) (le_of_lt hh')
    _ = (bh : ℚ) := hch
  have hdim : ∀ (d bd : ℤ), 1 ≤ bd → (0 : ℚ) < (d : ℚ) → (d : ℚ) * s ≤ (bd : ℚ) →
      max 1 (pyRound ((d : ℚ) * s)) ≤ bd ∧
      |((max 1 (pyRound ((d : ℚ) * s)) : ℤ) : ℚ) - (d : ℚ) * s| ≤ 1 := by
    intro d bd hbd hd' hle
    have habs := abs_pyRound_sub_le ((d : ℚ) * s)
    have hple : pyRound ((d : ℚ) * s) ≤ bd := pyRound_le_intCast hle
    constructor
    · exact max_le hbd hple
    · rcases le_or_lt 1 (pyRound ((d : ℚ) * s)) with hp | hp
      · rw [max_eq_right hp]
        exact le_trans habs (by norm_num)
      · rw [max_eq_left (le_of_lt hp)]
        have hp0 : pyRound ((d : ℚ) * s) ≤ 0 := by omega
        have hp0' : ((pyRound ((d : ℚ) * s) : ℤ) : ℚ) ≤ 0 := by exact_mod_cast hp0
        have hub : (d : ℚ) * s ≤ ((pyRound ((d : ℚ) * s) : ℤ) : ℚ) + 1/2 := by
          have := (abs_le.mp habs).1
          linarith
        have hpos : 0 < (d : ℚ) * s := mul_pos hd' hspos
        rw [abs_le]
        push_cast
        constructor <;> linarith
  obtain ⟨hw1, hw2⟩ := hdim w bw hbw hw' hws_le
  obtain ⟨hh1, hh2⟩ := hdim h bh hbh hh' hhs_le
  exact ⟨rfl, hw1, hh1, hw2, hh2⟩

/-- C5 witness: a 100 by 50 bitmap contained in a 32 by 32 box stays within
the box on both axes. -/
theorem c5_contain_fit_witness :
    (contain_size 100 50 32 32).1 ≤ 32 ∧ (contain_size 100 50 32 32).2 ≤ 32 :=
  ⟨(c5_contain_fit 100 50 32 32 (by decide) (by decide) (by decide) (by decide)).2.1,
   (c5_contain_fit 100 50 32 32 (by decide) (by decide) (by decide) (by decide)).2.2.1⟩

/-! ## C6: alpha trim idempotence -/

lemma alphaAt_crop (img : Img) (l u r lo x y : ℕ) :
    alphaAt (crop img l u r lo) x y = alphaAt img (x + l) (y + u) := rfl

lemma mem_nzX {img : Img} {x : ℕ} :
    x ∈ nzX img ↔ x < img.w ∧ ∃ y, y < img.h ∧ alphaAt img x y ≠ 0 := by
  unfold nzX
  simp [Finset.mem_filter, Finset.mem_range]

lemma mem_nzY {img : Img} {y : ℕ} :
    y ∈ nzY img ↔ y < img.h ∧ ∃ x, x < img.w ∧ alphaAt img x y ≠ 0 := by
  unfold nzY
  simp [Finset.mem_filter, Finset.mem_range]

lemma getbbox_eq_some {img : Img} {l u r lo : ℕ}
    (hb : getbbox img = some (l, u, r, lo)) :
    ∃ (hx : (nzX img).Nonempty) (hy : (nzY img).Nonempty),
      l = (nzX img).min' hx ∧ u = (nzY img).min' hy ∧
      r = (nzX img).max' hx + 1 ∧ lo = (nzY img).max' hy + 1 := by
  unfold getbbox at hb
  split_ifs at hb with hx hy
  simp only [Option.some.injEq, Prod.mk.injEq] at hb
  exact ⟨hx, hy, hb.1.symm, hb.2.1.symm, hb.2.2.1.symm, hb.2.2.2.symm⟩

lemma getbbox_crop {img : Img} {l u r lo : ℕ}
    (hb : getbbox img = some (l, u, r, lo)) :
    getbbox (crop img l u r lo) = some (0, 0, r - l, lo - u) := by
  obtain ⟨hx, hy, hl, hu, hr, hlo⟩ := getbbox_eq_some hb
  have hxM := Finset.max'_mem _ hx
  have hxm := Finset.min'_mem _ hx
  have hyM := Finset.max'_mem _ hy
  have hym := Finset.min'_mem _ hy
  have hxMw : (nzX img).max' hx < img.w := (mem_nzX.mp hxM).1
  have hyMh : (nzY img).max' hy < img.h := (mem_nzY.mp hyM).1
  have hlm : l ≤ (nzX img).max' hx := by
    rw [hl]; exact Finset.min'_le _ _ hxM
  have hum : u ≤ (nzY img).max' hy := by
    rw [hu]; exact Finset.min'_le _ _ hyM
  have hbX : ∀ a ∈ nzX img, l ≤ a ∧ a < r := by
    intro a ha
    refine ⟨by rw [hl]; exact Finset.min'_le _ _ ha, ?_⟩
    rw [hr]
    have := Finset.le_max' _ a ha
    omega
  have hbY : ∀ b ∈ nzY img, u ≤ b ∧ b < lo := by
    intro b hbm
    refine ⟨by rw [hu]; exact Finset.min'_le _ _ hbm, ?_⟩
    rw [hlo]
    have := Finset.le_max' _ b hbm
    omega
  have hmemX : ∀ x : ℕ, x ∈ nzX (crop img l u r lo) ↔ x + l ∈ nzX img ∧ x < r - l := by
    intro x
    rw [mem_nzX, mem_nzX]
    simp only [crop, alphaAt]
    constructor
    · rintro ⟨hxlt, y, hylt, ha⟩
      have hxr : x + l < r := by omega
      have hyl : y + u < lo := by omega
      exact ⟨⟨by omega, y + u, by omega, ha⟩, hxlt⟩
    · rintro ⟨⟨hxw, y', hy'h, ha⟩, hxlt⟩
      have hy'B : y' ∈ nzY img := by
        rw [mem_nzY]
        exact ⟨hy'h, x + l, hxw, ha⟩
      obtain ⟨huy, hylo⟩ := hbY y' hy'B
      refine ⟨hxlt, y' - u, by omega, ?_⟩
      have hcan : y' - u + u = y' := by omega
      rw [hcan]
      exact ha
  have hmemY : ∀ y : ℕ, y ∈ nzY (crop img l u r lo) ↔ y + u ∈ nzY img ∧ y < lo - u := by
    intro y
    rw [mem_nzY, mem_nzY]
    simp only [crop, alphaAt]
    constructor
    · rintro ⟨hylt, x, hxlt, ha⟩
      have hxr : x + l < r := by omega
      have hyl : y + u < lo := by omega
      exact ⟨⟨by omega, x + l, by omega, ha⟩, hylt⟩
    · rintro ⟨⟨hyh, x', hx'w, ha⟩, hylt⟩
      have hx'A : x' ∈ nzX img := by
        rw [mem_nzX]
        exact ⟨hx'w, y + u, hyh, ha⟩
      obtain ⟨hlx, hxr⟩ := hbX x' hx'A
      refine ⟨hylt, x' - l, by omega, ?_⟩
      have hcan : x' - l + l = x' := by omega
      rw [hcan]
      exact ha
  have hxM_crop : (nzX img).max' hx - l ∈ nzX (crop img l u r lo) := by
    rw [hmemX]
    refine ⟨?_, by omega⟩
    have hcan : (nzX img).max' hx - l + l = (nzX img).max' hx := by omega
    rw [hcan]
    exact hxM
  have hyM_crop : (nzY img).max' hy - u ∈ nzY (crop img l u r lo) := by
    rw [hmemY]
    refine ⟨?_, by omega⟩
    have hcan : (nzY img).max' hy - u + u = (nzY img).max' hy := by omega
    rw [hcan]
    exact hyM
  have h0X : (0 : ℕ) ∈ nzX (crop img l u r lo) := by
    rw [hmemX]
    refine ⟨?_, by omega⟩
    have hcan : 0 + l = l := by omega
    rw [hcan, hl]
    exact hxm
  have h0Y : (0 : ℕ) ∈ nzY (crop img l u r lo) := by
    rw [hmemY]
    refine ⟨?_, by omega⟩
    have hcan : 0 + u = u := by omega
    rw [hcan, hu]
    exact hym
  have hxne : (nzX (crop img l u r lo)).Nonempty := ⟨0, h0X⟩
  have hyne : (nzY (crop img l u r lo)).Nonempty := ⟨0, h0Y⟩
  have hminX : (nzX (crop img l u r lo)).min' hxne = 0 :=
    Nat.le_zero.mp (Finset.min'_le _ _ h0X)
  have hminY : (nzY (crop img l u r lo)).min' hyne = 0 :=
    Nat.le_zero.mp (Finset.min'_le _ _ h0Y)
  have hmaxX : (nzX (crop img l u r lo)).max' hxne = (nzX img).max' hx - l := by
    apply le_antisymm
    · apply Finset.max'_le
      intro b hbm
      rw [hmemX] at hbm
      have h2 := Finset.le_max' _ _ hbm.1
      omega
    · exact Finset.le_max' _ _ hxM_crop
  have hmaxY : (nzY (crop img l u r lo)).max' hyne = (nzY img).max' hy - u := by
    apply le_antisymm
    · apply Finset.max'_le
      intro b hbm
      rw [hmemY] at hbm
      have h2 := Finset.le_max' _ _ hbm.1
      omega
    · exact Finset.le_max' _ _ hyM_crop
  unfold getbbox
  rw [dif_pos hxne, dif_pos hyne]
  simp only [Option.some.injEq, Prod.mk.injEq]
  refine ⟨hminX, hminY, ?_, ?_⟩
  · rw [hmaxX]; omega
  · rw [hmaxY]; omega

/-- C6: trim_alpha is idempotent on RGBA images, and a fully transparent
image (no alpha bounding box) is returned unchanged. -/
theorem c6_trim_alpha_idempotent (img : Img) :
    trim_alpha (trim_alpha img) = trim_alpha img ∧
    (getbbox img = none → trim_alpha img = img) := by
  constructor
  · cases hb : getbbox img with
    | none => simp [trim_alpha, hb]
    | some t =>
      obtain ⟨l, u, r, lo⟩ := t
      have hc := getbbox_crop hb
      simp only [trim_alpha, hb, hc]
      rfl
  · intro h
    simp [trim_alpha, h]

/-- C6 witness: a concrete fully transparent image is returned unchanged. -/
theorem c6_trim_alpha_idempotent_witness :
    trim_alpha ⟨2, 2, fun _ _ => (0, 0, 0, 0)⟩ = (⟨2, 2, fun _ _ => (0, 0, 0, 0)⟩ : Img) :=
  (c6_trim_alpha_idempotent ⟨2, 2, fun _ _ => (0, 0, 0, 0)⟩).2 (by decide)

/-! ## C1: HTML fragment mirrors the generated artifacts -/

lemma take20_of_append (t r : String) (h : 20 ≤ t.data.length) :
    (t ++ r).data.take 20 = t.data.take 20 := by
  have hd : (t ++ r).data = t.data ++ r.data := rfl
  rw [hd, List.take_append_of_le_length h]

lemma svgLine_key (a : Args) :
    (svgLine a).data.take 20 = ("<link rel=\"icon\" href=\"").data.take 20 := by
  unfold svgLine
  exact take20_of_append _ _ (by decide)

lemma pngLine_key (a : Args) (s : ℤ) :
    (pngLine a s).data.take 20 =
      ("<link rel=\"icon\" type=\"image/png\" sizes=\"").data.take 20 := by
  unfold pngLine
  exact take20_of_append _ _ (by decide)

lemma appleLine_key (a : Args) :
    (appleLine a).data.take 20 =
      ("<link rel=\"apple-touch-icon\" sizes=\"180x180\" href=\"").data.take 20 := by
  unfold appleLine
  exact take20_of_append _ _ (by decide)

lemma maskLine_key (a : Args) :
    (maskLine a).data.take 20 = ("<link rel=\"mask-icon\" href=\"").data.take 20 := by
  unfold maskLine
  exact take20_of_append _ _ (by decide)

lemma manifestLine_key (a : Args) :
    (manifestLine a).data.take 20 = ("<link rel=\"manifest\" href=\"").data.take 20 := by
  unfold manifestLine
  exact take20_of_append _ _ (by decide)

lemma themeLine_key (a : Args) :
    (themeLine a).data.take 20 = ("<meta name=\"theme-color\" content=\"").data.take 20 := by
  unfold themeLine
  exact take20_of_append _ _ (by decide)

lemma bgLine_key (a : Args) :
    (bgLine a).data.take 20 =
      ("<meta name=\"background-color\" content=\"").data.take 20 := by
  unfold bgLine
  exact take20_of_append _ _ (by decide)

lemma tileColorLine_key (a : Args) :
    (tileColorLine a).data.take 20 =
      ("<meta name=\"msapplication-TileColor\" content=\"").data.take 20 := by
  unfold tileColorLine
  exact take20_of_append _ _ (by decide)

lemma configLine_key (a : Args) :
    (configLine a).data.take 20 =
      ("<meta name=\"msapplication-config\" content=\"").data.take 20 := by
  unfold configLine
  exact take20_of_append _ _ (by decide)

lemma icoLine_key (a : Args) :
    (icoLine a).data.take 20 = ("<link rel=\"alternate icon\" href=\"").data.take 20 := by
  unfold icoLine
  exact take20_of_append _ _ (by decide)

lemma lineTag_headerLine : lineTag headerLine = 11 := by decide

lemma lineTag_footerLine : lineTag footerLine = 12 := by decide

lemma lineTag_svgLine (a : Args) : lineTag (svgLine a) = 1 := by
  unfold lineTag
  rw [svgLine_key]
  decide

lemma lineTag_pngLine (a : Args) (s : ℤ) : lineTag (pngLine a s) = 2 := by
  unfold lineTag
  rw [pngLine_key]
  decide

lemma lineTag_appleLine (a : Args) : lineTag (appleLine a) = 3 := by
  unfold lineTag
  rw [appleLine_key]
  decide

lemma lineTag_maskLine (a : Args) : lineTag (maskLine a) = 4 := by
  unfold lineTag
  rw [maskLine_key]
  decide

lemma lineTag_manifestLine (a : Args) : lineTag (manifestLine a) = 5 := by
  unfold lineTag
  rw [manifestLine_key]
  decide

lemma lineTag_themeLine (a : Args) : lineTag (themeLine a) = 6 := by
  unfold lineTag
  rw [themeLine_key]
  decide

lemma lineTag_bgLine (a : Args) : lineTag (bgLine a) = 7 := by
  unfold lineTag
  rw [bgLine_key]
  decide

lemma lineTag_tileColorLine (a : Args) : lineTag (tileColorLine a) = 8 := by
  unfold lineTag
  rw [tileColorLine_key]
  decide

lemma lineTag_configLine (a : Args) : lineTag (configLine a) = 8 := by
  unfold lineTag
  rw [configLine_key]
  decide

lemma lineTag_icoLine (a : Args) : lineTag (icoLine a) = 0 := by
  unfold lineTag
  rw [icoLine_key]
  decide

lemma mem_ite_list {α : Type} {c : Prop} [Decidable c] {x : α} {l : List α} :
    (x ∈ if c then l else []) ↔ c ∧ x ∈ l := by
  split_ifs with h
  · simp [h]
  · simp [h]

lemma mem_ite_nil_list {α : Type} {c : Prop} [Decidable c] {x : α} {l : List α} :
    (x ∈ if c then [] else l) ↔ ¬c ∧ x ∈ l := by
  split_ifs with h
  · simp [h]
  · simp [h]

lemma svgLine_notMem (a : Args) (sizes : List ℤ) :
    svgLine a ∉ emitLines a false sizes := by
  intro hmem
  have htag := List.mem_map_of_mem lineTag hmem
  rw [lineTag_svgLine] at htag
  simp [emitLines, apply_ite (List.map lineTag), Function.comp, mem_ite_list,
    mem_ite_nil_list, lineTag_headerLine, lineTag_footerLine, lineTag_pngLine,
    lineTag_appleLine, lineTag_maskLine, lineTag_manifestLine, lineTag_themeLine,
    lineTag_bgLine, lineTag_tileColorLine, lineTag_configLine, lineTag_icoLine,
    lineTag_svgLine] at htag

lemma appleLine_notMem (a : Args) (is_svg : Bool) (sizes : List ℤ)
    (h : a.no_apple_touch = true) :
    appleLine a ∉ emitLines a is_svg sizes := by
  intro hmem
  have htag := List.mem_map_of_mem lineTag hmem
  rw [lineTag_appleLine] at htag
  simp [emitLines, h, apply_ite (List.map lineTag), Function.comp, mem_ite_list,
    mem_ite_nil_list, lineTag_headerLine, lineTag_footerLine, lineTag_pngLine,
    lineTag_appleLine, lineTag_maskLine, lineTag_manifestLine, lineTag_themeLine,
    lineTag_bgLine, lineTag_tileColorLine, lineTag_configLine, lineTag_icoLine,
    lineTag_svgLine] at htag

lemma maskLine_notMem (a : Args) (is_svg : Bool) (sizes : List ℤ)
    (h : a.pinned_svg.isSome = false) :
    maskLine a ∉ emitLines a is_svg sizes := by
  intro hmem
  have htag := List.mem_map_of_mem lineTag hmem
  rw [lineTag_maskLine] at htag
  simp [emitLines, h, apply_ite (List.map lineTag), Function.comp, mem_ite_list,
    mem_ite_nil_list, lineTag_headerLine, lineTag_footerLine, lineTag_pngLine,
    lineTag_appleLine, lineTag_maskLine, lineTag_manifestLine, lineTag_themeLine,
    lineTag_bgLine, lineTag_tileColorLine, lineTag_configLine, lineTag_icoLine,
    lineTag_svgLine] at htag

lemma manifestLine_notMem (a : Args) (is_svg : Bool) (sizes : List ℤ)
    (h : a.no_manifest = true) :
    manifestLine a ∉ emitLines a is_svg sizes := by
  intro hmem
  have htag := List.mem_map_of_mem lineTag hmem
  rw [lineTag_manifestLine] at htag
  simp [emitLines, h, apply_ite (List.map lineTag), Function.comp, mem_ite_list,
    mem_ite_nil_list, lineTag_headerLine, lineTag_footerLine, lineTag_pngLine,
    lineTag_appleLine, lineTag_maskLine, lineTag_manifestLine, lineTag_themeLine,
    lineTag_bgLine, lineTag_tileColorLine, lineTag_configLine, lineTag_icoLine,
    lineTag_svgLine] at htag

lemma configLine_notMem (a : Args) (is_svg : Bool) (sizes : List ℤ)
    (h : a.make_browserconfig = false) :
    configLine a ∉ emitLines a is_svg sizes := by
  intro hmem
  have htag := List.mem_map_of_mem lineTag hmem
  rw [lineTag_configLine] at htag
  simp [emitLines, h, apply_ite (List.map lineTag), Function.comp, mem_ite_list,
    mem_ite_nil_list, lineTag_headerLine, lineTag_footerLine, lineTag_pngLine,
    lineTag_appleLine, lineTag_maskLine, lineTag_manifestLine, lineTag_themeLine,
    lineTag_bgLine, lineTag_tileColorLine, lineTag_configLine, lineTag_icoLine,
    lineTag_svgLine] at htag

lemma icoLine_notMem (a : Args) (is_svg : Bool) (sizes : List ℤ)
    (h : a.no_ico = true) :
    icoLine a ∉ emitLines a is_svg sizes := by
  intro hmem
  have htag := List.mem_map_of_mem lineTag hmem
  rw [lineTag_icoLine] at htag
  simp [emitLines, h, apply_ite (List.map lineTag), Function.comp, mem_ite_list,
    mem_ite_nil_list, lineTag_headerLine, lineTag_footerLine, lineTag_pngLine,
    lineTag_appleLine, lineTag_maskLine, lineTag_manifestLine, lineTag_themeLine,
    lineTag_bgLine, lineTag_tileColorLine, lineTag_configLine, lineTag_icoLine,
    lineTag_svgLine] at htag

lemma svgLine_mem_iff (a : Args) (is_svg : Bool) (sizes : List ℤ) :
    svgLine a ∈ emitLines a is_svg sizes ↔ is_svg = true := by
  cases is_svg with
  | false =>
    simp only [Bool.false_eq_true, iff_false]
    exact svgLine_notMem a sizes
  | true =>
    refine ⟨fun _ => rfl, fun _ => ?_⟩
    simp [emitLines]

lemma appleLine_mem_iff (a : Args) (is_svg : Bool) (sizes : List ℤ) :
    appleLine a ∈ emitLines a is_svg sizes ↔ a.no_apple_touch = false := by
  cases hflag : a.no_apple_touch with
  | true =>
    constructor
    · intro hmem
      exact absurd hmem (appleLine_notMem a is_svg sizes hflag)
    · intro hcon
      exact absurd hcon (by decide)
  | false =>
    refine ⟨fun _ => rfl, fun _ => ?_⟩
    simp [emitLines, hflag]

lemma maskLine_mem_iff (a : Args) (is_svg : Bool) (sizes : List ℤ) :
    maskLine a ∈ emitLines a is_svg sizes ↔ a.pinned_svg.isSome = true := by
  cases hflag : a.pinned_svg.isSome with
  | false =>
    constructor
    · intro hmem
      exact absurd hmem (maskLine_notMem a is_svg sizes hflag)
    · intro hcon
      exact absurd hcon (by decide)
  | true =>
    refine ⟨fun _ => rfl, fun _ => ?_⟩
    simp [emitLines, hflag]

lemma manifestLine_mem_iff (a : Args) (is_svg : Bool) (sizes : List ℤ) :
    manifestLine a ∈ emitLines a is_svg sizes ↔ a.no_manifest = false := by
  cases hflag : a.no_manifest with
  | true =>
    constructor
    · intro hmem
      exact absurd hmem (manifestLine_notMem a is_svg sizes hflag)
    · intro hcon
      exact absurd hcon (by decide)
  | false =>
    refine ⟨fun _ => rfl, fun _ => ?_⟩
    simp [emitLines, hflag]

lemma configLine_mem_iff (a : Args) (is_svg : Bool) (sizes : List ℤ) :
    configLine a ∈ emitLines a is_svg sizes ↔ a.make_browserconfig = true := by
  cases hflag : a.make_browserconfig with
  | false =>
    constructor
    · intro hmem
      exact absurd hmem (configLine_notMem a is_svg sizes hflag)
    · intro hcon
      exact absurd hcon (by decide)
  | true =>
    refine ⟨fun _ => rfl, fun _ => ?_⟩
    simp [emitLines, hflag]

lemma icoLine_mem_iff (a : Args) (is_svg : Bool) (sizes : List ℤ) :
    icoLine a ∈ emitLines a is_svg sizes ↔ a.no_ico = false := by
  cases hflag : a.no_ico with
  | true =>
    constructor
    · intro hmem
      exact absurd hmem (icoLine_notMem a is_svg sizes hflag)
    · intro hcon
      exact absurd hcon (by decide)
  | false =>
    refine ⟨fun _ => rfl, fun _ => ?_⟩
    simp [emitLines, hflag]

lemma copySvg_mem_iff (a : Args) (is_svg : Bool) (sizes : List ℤ) :
    (∃ p, Artifact.copySvg p ∈ mainWrites a is_svg sizes) ↔ is_svg = true := by
  cases is_svg with
  | true =>
    refine ⟨fun _ => rfl, fun _ => ⟨a.icons_dir ++ "/favicon.svg", ?_⟩⟩
    simp [mainWrites]
  | false =>
    simp only [Bool.false_eq_true, iff_false]
    rintro ⟨p, hp⟩
    simp [mainWrites, faviconPngs, mem_ite_list, mem_ite_nil_list] at hp

lemma appleTouch_mem_iff (a : Args) (is_svg : Bool) (sizes : List ℤ) :
    (∃ p b, Artifact.appleTouch p b ∈ mainWrites a is_svg sizes) ↔
      a.no_apple_touch = false := by
  cases hflag : a.no_apple_touch with
  | false =>
    refine ⟨fun _ => rfl, fun _ => ⟨a.icons_dir ++ "/apple-touch-icon.png", a.pwa_bg, ?_⟩⟩
    simp [mainWrites, hflag]
  | true =>
    constructor
    · rintro ⟨p, b, hp⟩
      simp [mainWrites, faviconPngs, hflag, mem_ite_list, mem_ite_nil_list] at hp
    · intro hcon
      exact absurd hcon (by decide)

lemma copyPinned_mem_iff (a : Args) (is_svg : Bool) (sizes : List ℤ) :
    (∃ p, Artifact.copyPinned p ∈ mainWrites a is_svg sizes) ↔
      a.pinned_svg.isSome = true := by
  cases hflag : a.pinned_svg.isSome with
  | true =>
    refine ⟨fun _ => rfl, fun _ => ⟨a.icons_dir ++ "/safari-pinned-tab.svg", ?_⟩⟩
    simp [mainWrites, hflag]
  | false =>
    constructor
    · rintro ⟨p, hp⟩
      simp [mainWrites, faviconPngs, hflag, mem_ite_list, mem_ite_nil_list] at hp
    · intro hcon
      exact absurd hcon (by decide)

lemma manifest_mem_iff (a : Args) (is_svg : Bool) (sizes : List ℤ) :
    (∃ p t b n s m, Artifact.manifest p t b n s m ∈ mainWrites a is_svg sizes) ↔
      a.no_manifest = false := by
  cases hflag : a.no_manifest with
  | false =>
    refine ⟨fun _ => rfl,
      fun _ => ⟨a.manifest_dir ++ "/site.webmanifest", a.pwa_theme, a.pwa_bg, a.pwa_name,
        a.pwa_short_name, !a.no_maskable, ?_⟩⟩
    simp [mainWrites, hflag]
  | true =>
    constructor
    · rintro ⟨p, t, b, n, s, m, hp⟩
      simp [mainWrites, faviconPngs, hflag, mem_ite_list, mem_ite_nil_list] at hp
    · intro hcon
      exact absurd hcon (by decide)

lemma browserconfig_mem_iff (a : Args) (is_svg : Bool) (sizes : List ℤ) :
    (∃ p c, Artifact.browserconfig p c ∈ mainWrites a is_svg sizes) ↔
      a.make_browserconfig = true := by
  cases hflag : a.make_browserconfig with
  | true =>
    refine ⟨fun _ => rfl,
      fun _ => ⟨a.manifest_dir ++ "/browserconfig.xml", a.pwa_theme, ?_⟩⟩
    simp [mainWrites, hflag]
  | false =>
    constructor
    · rintro ⟨p, c, hp⟩
      simp [mainWrites, faviconPngs, hflag, mem_ite_list, mem_ite_nil_list] at hp
    · intro hcon
      exact absurd hcon (by decide)

lemma ico_mem_iff (a : Args) (is_svg : Bool) (sizes : List ℤ) :
    (∃ p ss, Artifact.ico p ss ∈ mainWrites a is_svg sizes) ↔ a.no_ico = false := by
  cases hflag : a.no_ico with
  | false =>
    refine ⟨fun _ => rfl,
      fun _ => ⟨a.icons_dir ++ "/favicon.ico", save_ico_sizes (ico_sizes sizes), ?_⟩⟩
    simp [mainWrites, hflag]
  | true =>
    constructor
    · rintro ⟨p, ss, hp⟩
      simp [mainWrites, faviconPngs, hflag, mem_ite_list, mem_ite_nil_list] at hp
    · intro hcon
      exact absurd hcon (by decide)

/-- C1: for every combination of CLI flags, each conditional line of the
emitted HTML fragment is present exactly when the corresponding artifact is
written in the same run: the SVG link with the copied favicon.svg (source was
SVG), the apple-touch-icon link with apple-touch-icon.png (no-apple-touch
absent), the mask-icon link with the copied pinned SVG (pinned-svg given),
the manifest link with site.webmanifest (no-manifest absent), the
msapplication-config meta with browserconfig.xml (make-browserconfig set),
and the alternate icon link with favicon.ico (no-ico absent). -/
theorem c1_html_mirrors_artifacts (a : Args) (is_svg : Bool) (sizes : List ℤ) :
    (svgLine a ∈ emitLines a is_svg sizes ↔
      ∃ p, Artifact.copySvg p ∈ mainWrites a is_svg sizes) ∧
    (svgLine a ∈ emitLines a is_svg sizes ↔ is_svg = true) ∧
    (appleLine a ∈ emitLines a is_svg sizes ↔
      ∃ p b, Artifact.appleTouch p b ∈ mainWrites a is_svg sizes) ∧
    (appleLine a ∈ emitLines a is_svg sizes ↔ a.no_apple_touch = false) ∧
    (maskLine a ∈ emitLines a is_svg sizes ↔
      ∃ p, Artifact.copyPinned p ∈ mainWrites a is_svg sizes) ∧
    (maskLine a ∈ emitLines a is_svg sizes ↔ a.pinned_svg.isSome = true) ∧
    (manifestLine a ∈ emitLines a is_svg sizes ↔
      ∃ p t b n s m, Artifact.manifest p t b n s m ∈ mainWrites a is_svg sizes) ∧
    (manifestLine a ∈ emitLines a is_svg sizes ↔ a.no_manifest = false) ∧
    (configLine a ∈ emitLines a is_svg sizes ↔
      ∃ p c, Artifact.browserconfig p c ∈ mainWrites a is_svg sizes) ∧
    (configLine a ∈ emitLines a is_svg sizes ↔ a.make_browserconfig = true) ∧
    (icoLine a ∈ emitLines a is_svg sizes ↔
      ∃ p ss, Artifact.ico p ss ∈ mainWrites a is_svg sizes) ∧
    (icoLine a ∈ emitLines a is_svg sizes ↔ a.no_ico = false) :=
  ⟨(svgLine_mem_iff a is_svg sizes).trans (copySvg_mem_iff a is_svg sizes).symm,
   svgLine_mem_iff a is_svg sizes,
   (appleLine_mem_iff a is_svg sizes).trans (appleTouch_mem_iff a is_svg sizes).symm,
   appleLine_mem_iff a is_svg sizes,
   (maskLine_mem_iff a is_svg sizes).trans (copyPinned_mem_iff a is_svg sizes).symm,
   maskLine_mem_iff a is_svg sizes,
   (manifestLine_mem_iff a is_svg sizes).trans (manifest_mem_iff a is_svg sizes).symm,
   manifestLine_mem_iff a is_svg sizes,
   (configLine_mem_iff a is_svg sizes).trans (browserconfig_mem_iff a is_svg sizes).symm,
   configLine_mem_iff a is_svg sizes,
   (icoLine_mem_iff a is_svg sizes).trans (ico_mem_iff a is_svg sizes).symm,
   icoLine_mem_iff a is_svg sizes⟩

/-- C1 witness: in an SVG-source run with default flags, the SVG link is
emitted. -/
theorem c1_html_mirrors_artifacts_witness :
    svgLine ({} : Args) ∈ emitLines ({} : Args) true [16] :=
  ((c1_html_mirrors_artifacts ({} : Args) true [16]).2.1).mpr rfl
